import Mathlib

/-!
Verification of the poster-revision workflow of the AI-Edit client.

The embedding translates the state and the event handlers of
`src/App.tsx` together with the `refinePoster` service combinator of
`src/services/geminiService.ts` into pure Lean functions.  React state
setters become explicit record updates on an `AppState` value; each
`async` handler is modelled as an atomic state transformer that takes
the outcome of its (single) external service call as an explicit
argument, since the service itself is an opaque external collaborator.
Nondeterministic identifiers minted from `Date.now()` are passed in as
parameters.  Presentation-only state (modal flags, zoom, theme, the
upload queue, the loading booleans) is outside every claim and is not
part of the model; likewise the canvas pixel operations, which the
handlers receive as an abstract pure function where they matter.
-/

/-- A produced poster version: `{ id, src, prompt }` from `types.ts`. -/
structure Poster where
  id : String
  src : String
  prompt : String
deriving DecidableEq, Repr

/-- A tint choice `{ color, amount }`; `amount` lies in `[0, 1]` in the UI. -/
structure Tint where
  color : String
  amount : ℚ
deriving DecidableEq, Repr

/-- `ImageFilters` from `types.ts`: multiplicative percentages plus an
optional tint. -/
structure ImageFilters where
  brightness : Int
  contrast : Int
  saturate : Int
  tint : Option Tint
deriving DecidableEq, Repr

/-- `DEFAULT_FILTERS` from `App.tsx`: the baseline adjustment. -/
def DEFAULT_FILTERS : ImageFilters :=
  { brightness := 100, contrast := 100, saturate := 100, tint := none }

/-- A `Product` from `types.ts`; `processed` is the background-removed
image when background removal has succeeded. -/
structure Product where
  id : String
  original : String
  originalMimeType : String
  processed : Option String
  isProcessing : Bool
deriving DecidableEq, Repr

/-- `ExpandDirection` from `types.ts`. -/
inductive ExpandDirection where
  | all | top | bottom | left | right
deriving DecidableEq, Repr

/-- The raw string value of an `ExpandDirection`, as it appears in the
prompt built by `handleExpand`. -/
def ExpandDirection.str : ExpandDirection → String
  | .all => "all"
  | .top => "top"
  | .bottom => "bottom"
  | .left => "left"
  | .right => "right"

/-- `ExpandSize` from `types.ts`: 25, 50 or 100 percent. -/
inductive ExpandSize where
  | s25 | s50 | s100
deriving DecidableEq, Repr

/-- Numeric value of an `ExpandSize`. -/
def ExpandSize.toNat : ExpandSize → Nat
  | .s25 => 25
  | .s50 => 50
  | .s100 => 100

/-- The React state of `App` that the workflow claims are about:
`products`, `posters` (the PosterHistory), `activePosterId`, `error`,
`refinementVariations` (the RefinementCandidateSet) and
`pendingFilters` (the pending ImageAdjustment). -/
structure AppState where
  products : List Product
  posters : List Poster
  activePosterId : Option String
  error : Option String
  refinementVariations : List Poster
  pendingFilters : ImageFilters
deriving DecidableEq, Repr

/-- The history push used by every mutating handler in `App.tsx`:
`setPosters(prev => [newPoster, ...prev.slice(0, 1)])`.
`prev.slice(0, 1)` keeps at most the first element, so the result keeps
the new version plus at most one previous one. -/
def pushPoster (prev : List Poster) (newPoster : Poster) : List Poster :=
  newPoster :: prev.take 1

/-- `posters.find(p => p.id === activePosterId)`: resolve the active
poster id against the history.  A `null` id matches nothing. -/
def findActive (s : AppState) : Option Poster :=
  match s.activePosterId with
  | none => none
  | some aid => s.posters.find? (fun p => p.id == aid)

/-- Line 535 of `App.tsx`:
`posters.find(p => p.id === activePosterId) || posters[0] || null`,
the displayed poster. -/
def activePoster (s : AppState) : Option Poster :=
  match findActive s with
  | some p => some p
  | none => s.posters.head?

/-- `handleGenerate` from `App.tsx`.  `result` is the outcome of the
`generatePoster` service call (the message of a caught exception on the
error side); `newId` stands for the minted `poster-${Date.now()}`.
When no product has a processed image the handler sets a validation
error and returns before any service interaction. -/
def handleGenerate (s : AppState) (newId concept : String)
    (result : Except String String) : AppState :=
  let processedProducts := s.products.filter (fun p => p.processed.isSome)
  if processedProducts.isEmpty then
    { s with error := some "Please upload and process at least one product image." }
  else
    match result with
    | Except.ok posterBase64 =>
        let newPoster : Poster :=
          { id := newId
            src := "data:image/jpeg;base64," ++ posterBase64
            prompt := concept }
        { s with posters := pushPoster s.posters newPoster
                 activePosterId := some newPoster.id
                 error := none }
    | Except.error msg => { s with error := some msg }

/-- One leg of the refine fan-out: what `generateVariation` in
`geminiService.ts` observes from its `generateContent` call.  The
response either carries an inline image, carries none (the function
returns `null`), or the call rejects with a provider error, which
propagates because `generateVariation` has no handler of its own. -/
inductive VarOutcome where
  | image (data : String)
  | noImage
  | thrown (msg : String)
deriving DecidableEq, Repr

/-- `generateVariation` from `geminiService.ts` as a function of the
outcome of its request: the image data, `null`, or a propagated
rejection. -/
def generateVariation : VarOutcome → Except String (Option String)
  | VarOutcome.image d => Except.ok (some d)
  | VarOutcome.noImage => Except.ok none
  | VarOutcome.thrown m => Except.error m

/-- The usable image of one leg, if any. -/
def imageOf : VarOutcome → Option String
  | VarOutcome.image d => some d
  | _ => none

/-- Whether a leg rejects. -/
def throwsVar : VarOutcome → Bool
  | VarOutcome.thrown _ => true
  | _ => false

/-- `refinePoster` from `geminiService.ts`: the two variation legs are
joined with `Promise.all`, which rejects as soon as either leg rejects;
the surrounding handler replaces any failure by the fixed message.
When both legs resolve, `null` results are filtered out and an empty
remainder is a failure. -/
def refinePoster (o1 o2 : VarOutcome) : Except String (List String) :=
  match generateVariation o1, generateVariation o2 with
  | Except.ok v1, Except.ok v2 =>
      let results := [v1, v2].filterMap id
      if results.isEmpty then Except.error "Failed to refine the poster."
      else Except.ok results
  | _, _ => Except.error "Failed to refine the poster."

/-- `handleRefine` from `App.tsx`.  If the active id does not resolve,
the handler returns before touching any state.  Otherwise the candidate
set is cleared, the service is called, and on success the returned
base64 images become the candidate set; `stamp` stands for the
`Date.now()` part of the minted variation ids. -/
def handleRefine (s : AppState) (refinementPrompt stamp : String)
    (result : Except String (List String)) : AppState :=
  match findActive s with
  | none => s
  | some _ =>
      match result with
      | Except.ok base64s =>
          let newPosters : List Poster := base64s.enum.map (fun ib =>
            { id := "poster-variation-" ++ stamp ++ "-" ++ toString ib.1
              src := "data:image/jpeg;base64," ++ ib.2
              prompt := refinementPrompt })
          { s with refinementVariations := newPosters, error := none }
      | Except.error msg =>
          { s with refinementVariations := [], error := some msg }

/-- `handleImageModification` from `App.tsx`: push the modified image as
a new version and activate it, or record the error. -/
def handleImageModification (s : AppState) (newId prompt : String)
    (result : Except String String) : AppState :=
  match result with
  | Except.ok newBase64 =>
      let newPoster : Poster :=
        { id := newId
          src := "data:image/jpeg;base64," ++ newBase64
          prompt := prompt }
      { s with posters := pushPoster s.posters newPoster
               activePosterId := some newPoster.id
               error := none }
  | Except.error msg => { s with error := some msg }

/-- `handleUpscale` from `App.tsx`: a no-op unless the active id
resolves; otherwise an image modification with the upscale prompt. -/
def handleUpscale (s : AppState) (newId : String) (scale : Nat)
    (result : Except String String) : AppState :=
  match findActive s with
  | none => s
  | some _ =>
      handleImageModification s newId ("Upscaled " ++ toString scale ++ "x") result

/-- `handleExpand` from `App.tsx`: a no-op unless the active id
resolves; otherwise an image modification with the expand prompt. -/
def handleExpand (s : AppState) (newId : String)
    (direction : ExpandDirection) (size : ExpandSize)
    (result : Except String String) : AppState :=
  match findActive s with
  | none => s
  | some _ =>
      handleImageModification s newId
        ("Expanded image (" ++ direction.str ++ " " ++ toString size.toNat ++ "%)") result

/-- `handleConfirmRefinement` from `App.tsx`: push the chosen candidate,
activate it, discard the candidate set. -/
def handleConfirmRefinement (s : AppState) (poster : Poster) : AppState :=
  { s with posters := pushPoster s.posters poster
           activePosterId := some poster.id
           refinementVariations := [] }

/-- `handleCancelRefinement` from `App.tsx`: discard the candidate set
only. -/
def handleCancelRefinement (s : AppState) : AppState :=
  { s with refinementVariations := [] }

/-- `handleApplyFilters` from `App.tsx`.  The canvas compositing is an
external pure function `bake` of the source image and the pending
filters; the handler is a no-op unless the active id resolves, and on
success pushes the baked version, activates it and resets the pending
filters. -/
def handleApplyFilters (bake : String → ImageFilters → String)
    (s : AppState) (newId : String) : AppState :=
  match findActive s with
  | none => s
  | some active =>
      let newPoster : Poster :=
        { id := newId
          src := bake active.src s.pendingFilters
          prompt := "Applied image adjustments" }
      { s with posters := pushPoster s.posters newPoster
               activePosterId := some newId
               pendingFilters := DEFAULT_FILTERS }

/-- `handleApplyPosterCrop` from `App.tsx`: push the cropped image as a
new version and activate it. -/
def handleApplyPosterCrop (s : AppState) (newId croppedSrc : String) : AppState :=
  { s with posters := pushPoster s.posters { id := newId, src := croppedSrc, prompt := "Cropped image" }
           activePosterId := some newId }

/-- The gallery selection handler: `onSelect={setActivePosterId}` in
`App.tsx` assigns the clicked id unconditionally. -/
def setActive (s : AppState) (id : String) : AppState :=
  { s with activePosterId := some id }

/-- The `useEffect` of `App.tsx` lines 264 to 266: after a render in
which `activePosterId` differs from its previous value, the pending
filters are reset to the baseline. -/
def filterResetEffect (prevId : Option String) (s : AppState) : AppState :=
  if s.activePosterId ≠ prevId then { s with pendingFilters := DEFAULT_FILTERS } else s

/-! ### Concrete fixtures used by witnesses and counterexamples -/

/-- A sample poster. -/
def pA : Poster := { id := "p1", src := "s1", prompt := "c1" }

/-- A second sample poster. -/
def pB : Poster := { id := "p2", src := "s2", prompt := "c2" }

/-- A third sample poster. -/
def pC : Poster := { id := "p3", src := "s3", prompt := "c3" }

/-- A product whose background removal has succeeded. -/
def prodOk : Product :=
  { id := "prod1", original := "orig", originalMimeType := "image/jpeg"
    processed := some "proc", isProcessing := false }

/-- A sample state: two history entries, the older of the two active,
one processed product, no pending candidates. -/
def sampleState : AppState :=
  { products := [prodOk]
    posters := [pA, pB]
    activePosterId := some "p2"
    error := none
    refinementVariations := []
    pendingFilters := DEFAULT_FILTERS }

/-! ### Claims -/

/-- Claim C1: every push (successful generate, refine-confirm, upscale,
expand, filter-apply, crop-confirm) goes through the prepend-and-truncate
update `pushPoster`, so over any sequence of pushes the history never
exceeds length 2, the most recently pushed version sits at position 0,
and everything beyond the newest two entries is discarded. -/
theorem C1_history_push_invariant :
    (∀ (init ps : List Poster) (p : Poster),
        (List.foldl pushPoster init (ps ++ [p])).length ≤ 2 ∧
        (List.foldl pushPoster init (ps ++ [p])).head? = some p ∧
        List.foldl pushPoster init (ps ++ [p])
          = p :: (List.foldl pushPoster init ps).take 1) ∧
    (∀ (s : AppState) (newId concept b : String),
        (s.products.filter (fun pr => pr.processed.isSome)).isEmpty = false →
        ∃ np : Poster, np.id = newId ∧
          (handleGenerate s newId concept (Except.ok b)).posters
            = pushPoster s.posters np) ∧
    (∀ (s : AppState) (cand : Poster),
        (handleConfirmRefinement s cand).posters = pushPoster s.posters cand) ∧
    (∀ (s : AppState) (newId b : String) (sc : Nat) (q : Poster),
        findActive s = some q →
        ∃ np : Poster, np.id = newId ∧
          (handleUpscale s newId sc (Except.ok b)).posters
            = pushPoster s.posters np) ∧
    (∀ (s : AppState) (newId b : String) (dir : ExpandDirection)
        (sz : ExpandSize) (q : Poster),
        findActive s = some q →
        ∃ np : Poster, np.id = newId ∧
          (handleExpand s newId dir sz (Except.ok b)).posters
            = pushPoster s.posters np) ∧
    (∀ (bake : String → ImageFilters → String) (s : AppState)
        (newId : String) (q : Poster),
        findActive s = some q →
        ∃ np : Poster, np.id = newId ∧
          (handleApplyFilters bake s newId).posters = pushPoster s.posters np) ∧
    (∀ (s : AppState) (newId src : String),
        (handleApplyPosterCrop s newId src).posters
          = pushPoster s.posters { id := newId, src := src, prompt := "Cropped image" }) := by
  refine ⟨?_, ?_, ?_, ?_, ?_, ?_, ?_⟩
  · intro init ps p
    have h : List.foldl pushPoster init (ps ++ [p])
        = p :: (List.foldl pushPoster init ps).take 1 := by
      simp [List.foldl_append, pushPoster]
    refine ⟨?_, ?_, h⟩
    · rw [h]
      simp [List.length_take]
    · rw [h]
      rfl
  · intro s newId concept b h
    refine ⟨{ id := newId, src := "data:image/jpeg;base64," ++ b, prompt := concept }, rfl, ?_⟩
    simp [handleGenerate, h]
  · intro s cand
    simp [handleConfirmRefinement]
  · intro s newId b sc q hact
    refine ⟨{ id := newId, src := "data:image/jpeg;base64," ++ b
              prompt := "Upscaled " ++ toString sc ++ "x" }, rfl, ?_⟩
    simp [handleUpscale, hact, handleImageModification]
  · intro s newId b dir sz q hact
    refine ⟨{ id := newId, src := "data:image/jpeg;base64," ++ b
              prompt := "Expanded image (" ++ dir.str ++ " " ++ toString sz.toNat ++ "%)" }, rfl, ?_⟩
    simp [handleExpand, hact, handleImageModification]
  · intro bake s newId q hact
    refine ⟨{ id := newId, src := bake q.src s.pendingFilters
              prompt := "Applied image adjustments" }, rfl, ?_⟩
    simp [handleApplyFilters, hact]
  · intro s newId src
    simp [handleApplyPosterCrop]

/-- Witness for C1 at concrete inputs, discharging each hypothesis. -/
theorem C1_history_push_invariant_witness :
    (List.foldl pushPoster [] ([pA, pB] ++ [pC])).length ≤ 2 ∧
    (∃ np : Poster, np.id = "new" ∧
       (handleGenerate sampleState "new" "concept" (Except.ok "b")).posters
         = pushPoster sampleState.posters np) ∧
    (∃ np : Poster, np.id = "new" ∧
       (handleUpscale sampleState "new" 2 (Except.ok "b")).posters
         = pushPoster sampleState.posters np) ∧
    (∃ np : Poster, np.id = "new" ∧
       (handleExpand sampleState "new" ExpandDirection.top ExpandSize.s25
           (Except.ok "b")).posters
         = pushPoster sampleState.posters np) ∧
    (∃ np : Poster, np.id = "new" ∧
       (handleApplyFilters (fun src _ => src) sampleState "new").posters
         = pushPoster sampleState.posters np) :=
  ⟨(C1_history_push_invariant.1 [] [pA, pB] pC).1,
   C1_history_push_invariant.2.1 sampleState "new" "concept" "b" (by decide),
   C1_history_push_invariant.2.2.2.1 sampleState "new" "b" 2 pB (by decide),
   C1_history_push_invariant.2.2.2.2.1 sampleState "new" "b"
     ExpandDirection.top ExpandSize.s25 pB (by decide),
   C1_history_push_invariant.2.2.2.2.2.1 (fun src _ => src) sampleState "new" pB (by decide)⟩

/-- A state in the variation-selection sub-flow: `sampleState` with one
pending refinement candidate. -/
def choosingState : AppState :=
  { sampleState with refinementVariations := [pC] }

/-- Counterexample to claim C2 as stated: with one leg rejecting
(provider error) and the other returning a usable image, exactly one of
the two variation requests fails and one usable image is available, yet
`refinePoster` fails as a whole because `Promise.all` rejects, and the
controller records the error with an empty candidate set instead of
entering ChoosingVariation with one candidate. -/
theorem C2_refine_counterexample :
    imageOf (VarOutcome.image "d") = some "d" ∧
    refinePoster (VarOutcome.thrown "transport error") (VarOutcome.image "d")
      = Except.error "Failed to refine the poster." ∧
    (handleRefine sampleState "more neon" "t1"
        (refinePoster (VarOutcome.thrown "transport error")
          (VarOutcome.image "d"))).refinementVariations = [] ∧
    (handleRefine sampleState "more neon" "t1"
        (refinePoster (VarOutcome.thrown "transport error")
          (VarOutcome.image "d"))).error
      = some "Failed to refine the poster." := by
  refine ⟨rfl, rfl, ?_, ?_⟩ <;> decide

/-- Claim C2 (amended): the refine fires two variation requests and
joins them with `Promise.all`.  When neither request rejects, refine
succeeds with exactly the usable images whenever at least one response
carries one, and fails only when both carry none; in particular, when
exactly one response lacks a usable image the controller enters
ChoosingVariation with exactly one candidate.  When either request
rejects, the whole refine fails even if the other returned a usable
image, and the controller reports the error with an empty candidate
set. -/
theorem C2_refine_partial_failure (s : AppState) (q : Poster)
    (pr st : String) (o1 o2 : VarOutcome)
    (hact : findActive s = some q) :
    (throwsVar o1 = false → throwsVar o2 = false →
       ([imageOf o1, imageOf o2].filterMap id) ≠ [] →
       refinePoster o1 o2 = Except.ok ([imageOf o1, imageOf o2].filterMap id) ∧
       (handleRefine s pr st (refinePoster o1 o2)).refinementVariations.length
         = ([imageOf o1, imageOf o2].filterMap id).length ∧
       (handleRefine s pr st (refinePoster o1 o2)).error = none) ∧
    (throwsVar o1 = false → throwsVar o2 = false →
       ([imageOf o1, imageOf o2].filterMap id) = [] →
       refinePoster o1 o2 = Except.error "Failed to refine the poster.") ∧
    ((throwsVar o1 = true ∨ throwsVar o2 = true) →
       refinePoster o1 o2 = Except.error "Failed to refine the poster." ∧
       (handleRefine s pr st (refinePoster o1 o2)).refinementVariations = [] ∧
       (handleRefine s pr st (refinePoster o1 o2)).error
         = some "Failed to refine the poster.") := by
  cases o1 <;> cases o2 <;>
    simp [throwsVar, imageOf, refinePoster, generateVariation,
      handleRefine, hact]

/-- Witness for the amended C2: one leg returns no usable image, the
other returns one; refine succeeds with that single image and the
controller holds exactly one candidate. -/
theorem C2_refine_partial_failure_witness :
    refinePoster VarOutcome.noImage (VarOutcome.image "d") = Except.ok ["d"] ∧
    (handleRefine sampleState "more neon" "t1"
        (refinePoster VarOutcome.noImage
          (VarOutcome.image "d"))).refinementVariations.length = 1 := by
  have h := (C2_refine_partial_failure sampleState pB "more neon" "t1"
      VarOutcome.noImage (VarOutcome.image "d") (by decide)).1 rfl rfl (by decide)
  exact ⟨by simpa [imageOf] using h.1, by simpa [imageOf] using h.2.1⟩

/-- Claim C3: confirming a selected candidate pushes exactly that
candidate as the single new history entry, makes it the active and
displayed poster, and empties the candidate set. -/
theorem C3_confirm_refinement (s : AppState) (cand : Poster)
    (hmem : cand ∈ s.refinementVariations) :
    (handleConfirmRefinement s cand).posters = cand :: s.posters.take 1 ∧
    (handleConfirmRefinement s cand).activePosterId = some cand.id ∧
    activePoster (handleConfirmRefinement s cand) = some cand ∧
    (handleConfirmRefinement s cand).refinementVariations = [] := by
  refine ⟨rfl, rfl, ?_, rfl⟩
  simp [activePoster, findActive, handleConfirmRefinement, pushPoster]

/-- Witness for C3 at a concrete choosing state. -/
theorem C3_confirm_refinement_witness :
    (handleConfirmRefinement choosingState pC).posters
      = pC :: choosingState.posters.take 1 ∧
    (handleConfirmRefinement choosingState pC).activePosterId = some pC.id ∧
    activePoster (handleConfirmRefinement choosingState pC) = some pC ∧
    (handleConfirmRefinement choosingState pC).refinementVariations = [] :=
  C3_confirm_refinement choosingState pC (by decide)

/-- Claim C4: cancelling after any refine outcome leaves the history
and the active id exactly as they were before the refine was requested,
and empties the candidate set. -/
theorem C4_cancel_refinement (s : AppState) (pr st : String)
    (r : Except String (List String)) :
    (handleCancelRefinement (handleRefine s pr st r)).posters = s.posters ∧
    (handleCancelRefinement (handleRefine s pr st r)).activePosterId
      = s.activePosterId ∧
    (handleCancelRefinement (handleRefine s pr st r)).pendingFilters
      = s.pendingFilters ∧
    (handleCancelRefinement (handleRefine s pr st r)).refinementVariations = [] := by
  cases h : findActive s <;> cases r <;>
    simp [handleRefine, handleCancelRefinement, h]

/-- Claim C5: when the external service call of a generate, refine,
upscale or expand fails, the handler surfaces the single error message
and leaves the rest of the state exactly as it was.  Each conjunct
carries only the guard under which its service call actually happens:
the generate needs a processed product, the refine/upscale/expand need
a resolving active id, and the refine additionally starts from the
viewing state with an empty candidate set (the only state offering the
refine action). -/
theorem C5_failure_rollback (s : AppState)
    (newId concept pr st msg : String) (sc : Nat)
    (dir : ExpandDirection) (sz : ExpandSize) :
    ((s.products.filter (fun p => p.processed.isSome)).isEmpty = false →
       handleGenerate s newId concept (Except.error msg)
         = { s with error := some msg }) ∧
    (∀ q : Poster, findActive s = some q → s.refinementVariations = [] →
       handleRefine s pr st (Except.error msg)
         = { s with error := some msg }) ∧
    (∀ q : Poster, findActive s = some q →
       handleUpscale s newId sc (Except.error msg)
         = { s with error := some msg }) ∧
    (∀ q : Poster, findActive s = some q →
       handleExpand s newId dir sz (Except.error msg)
         = { s with error := some msg }) := by
  refine ⟨?_, ?_, ?_, ?_⟩
  · intro hprod
    simp [handleGenerate, hprod]
  · intro q hact hvar
    simp only [handleRefine, hact]
    cases s
    simp_all
  · intro q hact
    simp [handleUpscale, hact, handleImageModification]
  · intro q hact
    simp [handleExpand, hact, handleImageModification]

/-- Witness for C5 at the sample state, discharging each guard. -/
theorem C5_failure_rollback_witness :
    handleGenerate sampleState "new" "concept" (Except.error "boom")
      = { sampleState with error := some "boom" } ∧
    handleRefine sampleState "more neon" "t1" (Except.error "boom")
      = { sampleState with error := some "boom" } ∧
    handleUpscale sampleState "new" 2 (Except.error "boom")
      = { sampleState with error := some "boom" } ∧
    handleExpand sampleState "new" ExpandDirection.all ExpandSize.s50
        (Except.error "boom")
      = { sampleState with error := some "boom" } :=
  have h := C5_failure_rollback sampleState "new" "concept" "more neon" "t1"
    "boom" 2 ExpandDirection.all ExpandSize.s50
  ⟨h.1 (by decide), h.2.1 pB (by decide) rfl,
   h.2.2.1 pB (by decide), h.2.2.2 pB (by decide)⟩

/-- Claim C6: the displayed poster is the history member carrying the
active id when one exists, otherwise the most recent entry, and it is
empty exactly when the history is empty. -/
theorem C6_active_or_default (s : AppState) :
    (∀ p : Poster, findActive s = some p →
       activePoster s = some p ∧ p ∈ s.posters ∧ s.activePosterId = some p.id) ∧
    (findActive s = none → activePoster s = s.posters.head?) ∧
    (activePoster s = none ↔ s.posters = []) := by
  refine ⟨?_, ?_, ?_⟩
  · intro p hp
    refine ⟨by simp [activePoster, hp], ?_, ?_⟩
    · unfold findActive at hp
      cases ha : s.activePosterId with
      | none => rw [ha] at hp; cases hp
      | some aid =>
          rw [ha] at hp
          exact List.mem_of_find?_eq_some hp
    · unfold findActive at hp
      cases ha : s.activePosterId with
      | none => rw [ha] at hp; cases hp
      | some aid =>
          rw [ha] at hp
          have hbeq := List.find?_some hp
          have hid : p.id = aid := by simpa using hbeq
          rw [hid]
  · intro h
    simp [activePoster, h]
  · constructor
    · intro h
      unfold activePoster at h
      cases hf : findActive s with
      | some p => rw [hf] at h; cases h
      | none =>
          rw [hf] at h
          exact List.head?_eq_none_iff.mp h
    · intro h
      cases ha : s.activePosterId <;>
        simp [activePoster, findActive, ha, h]

/-- Witness for C6: at the sample state the active id resolves to the
older entry and that entry is displayed; at a state whose id dangles
the display falls back to the most recent entry. -/
theorem C6_active_or_default_witness :
    (activePoster sampleState = some pB ∧ pB ∈ sampleState.posters ∧
       sampleState.activePosterId = some pB.id) ∧
    activePoster { sampleState with activePosterId := some "ghost" }
      = ({ sampleState with activePosterId := some "ghost" } : AppState).posters.head? :=
  ⟨(C6_active_or_default sampleState).1 pB (by decide),
   (C6_active_or_default { sampleState with activePosterId := some "ghost" }).2.1
     (by decide)⟩

/-- Counterexample to claim C7 as stated: selecting an id that is not in
the history is not a no-op.  The raw setter assigns the dangling id, the
id no longer resolves to a history member (and is not unset), and the
displayed poster observably changes from the previously selected entry
to the fallback. -/
theorem C7_set_active_counterexample :
    ("ghost" ∉ List.map Poster.id sampleState.posters) ∧
    setActive sampleState "ghost" ≠ sampleState ∧
    (setActive sampleState "ghost").activePosterId = some "ghost" ∧
    findActive (setActive sampleState "ghost") = none ∧
    activePoster (setActive sampleState "ghost") ≠ activePoster sampleState := by
  refine ⟨?_, ?_, ?_, ?_, ?_⟩ <;> decide

/-- Claim C7 (amended): `setActive(id)` unconditionally stores `id` as
the active id and changes nothing else; when `id` is absent from the
history the stored reference dangles and the displayed poster falls
back to the most recent entry. -/
theorem C7_set_active_amended (s : AppState) (id : String) :
    (setActive s id).activePosterId = some id ∧
    (setActive s id).posters = s.posters ∧
    (setActive s id).refinementVariations = s.refinementVariations ∧
    (setActive s id).error = s.error ∧
    (id ∉ List.map Poster.id s.posters →
       activePoster (setActive s id) = s.posters.head?) := by
  refine ⟨rfl, rfl, rfl, rfl, ?_⟩
  intro hmem
  have hnone : s.posters.find? (fun p => p.id == id) = none := by
    rw [List.find?_eq_none]
    intro x hx
    simp only [beq_iff_eq]
    intro hxe
    exact hmem (hxe ▸ List.mem_map_of_mem Poster.id hx)
  simp [activePoster, findActive, setActive, hnone]

/-- Witness for the amended C7 at a dangling id. -/
theorem C7_set_active_amended_witness :
    (setActive sampleState "ghost").activePosterId = some "ghost" ∧
    activePoster (setActive sampleState "ghost") = sampleState.posters.head? :=
  ⟨(C7_set_active_amended sampleState "ghost").1,
   (C7_set_active_amended sampleState "ghost").2.2.2.2 (by decide)⟩

/-- Claim C8: whenever the active id takes a value different from its
previous one the pending adjustment is reset to the baseline
`{brightness 100, contrast 100, saturate 100, no tint}` regardless of
its prior value and of whether the new id resolves in the history, and
a successful apply commits exactly one new version with the pending
adjustment baked in, activates it, and resets the pending adjustment
to that same baseline. -/
theorem C8_pending_filters_reset (prevId : Option String) (s : AppState)
    (bake : String → ImageFilters → String) (newId : String) :
    (s.activePosterId ≠ prevId →
       (filterResetEffect prevId s).pendingFilters
         = { brightness := 100, contrast := 100, saturate := 100, tint := none }) ∧
    (∀ q : Poster, findActive s = some q →
       (handleApplyFilters bake s newId).posters
         = { id := newId, src := bake q.src s.pendingFilters
             prompt := "Applied image adjustments" } :: s.posters.take 1 ∧
       (handleApplyFilters bake s newId).activePosterId = some newId ∧
       (handleApplyFilters bake s newId).pendingFilters
         = { brightness := 100, contrast := 100, saturate := 100, tint := none }) := by
  refine ⟨?_, ?_⟩
  · intro hchange
    simp [filterResetEffect, hchange, DEFAULT_FILTERS]
  · intro q hact
    refine ⟨?_, ?_, ?_⟩ <;>
      simp [handleApplyFilters, hact, pushPoster, DEFAULT_FILTERS]

/-- Witness for C8: the reset fires on a change with nonbaseline
pending filters even when the new id resolves to no history member,
and a successful apply on the sample state resets to baseline. -/
theorem C8_pending_filters_reset_witness :
    (filterResetEffect (some "p2")
        { sampleState with
            activePosterId := some "ghost"
            pendingFilters := { brightness := 120, contrast := 80
                                saturate := 100, tint := none } }).pendingFilters
      = { brightness := 100, contrast := 100, saturate := 100, tint := none } ∧
    (handleApplyFilters (fun src _ => src ++ "+adj") sampleState "new").pendingFilters
      = { brightness := 100, contrast := 100, saturate := 100, tint := none } :=
  ⟨(C8_pending_filters_reset (some "p2")
      { sampleState with
          activePosterId := some "ghost"
          pendingFilters := { brightness := 120, contrast := 80
                              saturate := 100, tint := none } }
      (fun src _ => src ++ "+adj") "new").1 (by decide),
   ((C8_pending_filters_reset (some "p2") sampleState
      (fun src _ => src ++ "+adj") "new").2 pB (by decide)).2.2⟩

/-- Claim C9: a generate issued with no background-processed product is
rejected at the command boundary: the outcome does not depend on the
service result at all, history, active id and candidate set are
untouched, and the validation message is the surfaced error. -/
theorem C9_generate_validation (s : AppState) (newId concept : String)
    (r r2 : Except String String)
    (h : (s.products.filter (fun p => p.processed.isSome)).isEmpty = true) :
    handleGenerate s newId concept r = handleGenerate s newId concept r2 ∧
    (handleGenerate s newId concept r).posters = s.posters ∧
    (handleGenerate s newId concept r).activePosterId = s.activePosterId ∧
    (handleGenerate s newId concept r).refinementVariations
      = s.refinementVariations ∧
    (handleGenerate s newId concept r).error
      = some "Please upload and process at least one product image." := by
  refine ⟨?_, ?_, ?_, ?_, ?_⟩ <;> simp [handleGenerate, h]

/-- A product that has not been background-processed. -/
def prodRaw : Product :=
  { id := "prod2", original := "orig2", originalMimeType := "image/png"
    processed := none, isProcessing := false }

/-- A state with only an unprocessed product. -/
def noProcessedState : AppState :=
  { sampleState with products := [prodRaw] }

/-- Witness for C9 at a state whose only product is unprocessed. -/
theorem C9_generate_validation_witness :
    handleGenerate noProcessedState "new" "concept" (Except.ok "b")
      = handleGenerate noProcessedState "new" "concept" (Except.error "boom") ∧
    (handleGenerate noProcessedState "new" "concept" (Except.ok "b")).posters
      = noProcessedState.posters ∧
    (handleGenerate noProcessedState "new" "concept" (Except.ok "b")).activePosterId
      = noProcessedState.activePosterId ∧
    (handleGenerate noProcessedState "new" "concept" (Except.ok "b")).refinementVariations
      = noProcessedState.refinementVariations ∧
    (handleGenerate noProcessedState "new" "concept" (Except.ok "b")).error
      = some "Please upload and process at least one product image." :=
  C9_generate_validation noProcessedState "new" "concept"
    (Except.ok "b") (Except.error "boom") (by decide)

/-- A state whose active id dangles: the history is nonempty but the
stored id matches no entry, so the display falls back while refine,
upscale and expand find nothing to act on. -/
def danglingState : AppState :=
  { sampleState with activePosterId := some "ghost" }

/-- Claim C10: when the active id does not resolve to a history member,
refine, upscale and expand return without any state change and without
consuming the service result, while the display layer still shows the
most recent entry whenever the history is nonempty. -/
theorem C10_dangling_active_noop (s : AppState)
    (pr st newId : String) (sc : Nat) (dir : ExpandDirection)
    (sz : ExpandSize) (r : Except String String)
    (rl : Except String (List String))
    (h : findActive s = none) :
    handleRefine s pr st rl = s ∧
    handleUpscale s newId sc r = s ∧
    handleExpand s newId dir sz r = s ∧
    (s.posters ≠ [] → activePoster s ≠ none) := by
  refine ⟨?_, ?_, ?_, ?_⟩
  · simp [handleRefine, h]
  · simp [handleUpscale, h]
  · simp [handleExpand, h]
  · intro hne
    simp only [activePoster, h]
    cases hp : s.posters with
    | nil => exact absurd hp hne
    | cons a l => simp

/-- Witness for C10 at the dangling state. -/
theorem C10_dangling_active_noop_witness :
    handleRefine danglingState "more neon" "t1" (Except.ok ["b"])
      = danglingState ∧
    handleUpscale danglingState "new" 2 (Except.error "boom")
      = danglingState ∧
    handleExpand danglingState "new" ExpandDirection.left ExpandSize.s100
        (Except.error "boom")
      = danglingState ∧
    activePoster danglingState ≠ none := by
  have h := C10_dangling_active_noop danglingState "more neon" "t1" "new" 2
    ExpandDirection.left ExpandSize.s100 (Except.error "boom")
    (Except.ok ["b"]) (by decide)
  exact ⟨h.1, h.2.1, h.2.2.1, h.2.2.2 (by decide)⟩
